import Mathlib

/-!
Verification of the agent-monitoring core of FlowPipeLine (`flowline/master.py`)
against its natural-language specification.

The embedding is shallow: each Python construct is translated into an
executable Lean definition.

* `SlaveInfo` embeds the mutable per-agent record `SlaveInfo` (fields
  `name, ip, port, online, last_seen, data, error`).
* `RawResult` embeds the possible behaviours of the outbound
  `requests.get` call plus body parsing: a response with a status code and
  a parse result, a timeout exception, a connection error, or any other
  exception.
* `fetchSlaveInfo` embeds `MasterServer._fetch_slave_info`: the
  try/except around the request, the `status_code == 200` test, and the
  field commits of each branch.
* `fetchSlaveInfoE` embeds the same method but keeps the exception
  channel explicit (`Except PyExc`), so that "the fetcher never propagates
  an exception" is a provable statement rather than a typing accident.
* `monitorPass` embeds one roster pass of `_monitor_slaves`;
  `monitorEvents` embeds the `while self._running` loop as the list of
  (cycle, agent) fetch events it performs, given the values the running
  flag has when read at the top of each iteration.
* `initSlaves`, `get_slaves`, `get_slave`, `refresh_slave`, `refresh_all`,
  `health_check` embed `_init_slaves` and the Flask route handlers.

Timestamps (`time.time()`) are modelled as `Nat`; the JSON payload is
opaque to the master, so it is modelled as `String`.
-/

namespace FlowPipeLine

/-- The per-agent mutable record `SlaveInfo` from `master.py`.
`online=False, last_seen=None, data=None, error=None` at construction. -/
structure SlaveInfo where
  name : String
  ip : String
  port : Nat
  online : Bool
  last_seen : Option Nat
  data : Option String
  error : Option String
deriving DecidableEq, Repr

/-- `SlaveInfo.__init__(name, ip, port=5001)`: the freshly constructed record. -/
def SlaveInfo.init (name ip : String) (port : Nat := 5001) : SlaveInfo :=
  { name := name, ip := ip, port := port,
    online := false, last_seen := none, data := none, error := none }

/-- The dictionary produced by `SlaveInfo.to_dict`. -/
structure SlaveDict where
  name : String
  ip : String
  port : Nat
  online : Bool
  last_seen : Option Nat
  data : Option String
  error : Option String
deriving DecidableEq, Repr

/-- `SlaveInfo.to_dict`: copy every field into a fresh dictionary. -/
def SlaveInfo.to_dict (s : SlaveInfo) : SlaveDict :=
  { name := s.name, ip := s.ip, port := s.port, online := s.online,
    last_seen := s.last_seen, data := s.data, error := s.error }

deriving instance DecidableEq for Except

/-- Behaviour of one outbound `requests.get(url, timeout=timeout)` call
together with the parsing of its body: a response with an HTTP status code
and a body (`Except.ok payload` when `response.json()` parses, `Except.error m`
when it raises with message `m`); a timeout; a refused connection; or any
other exception with message `m`. -/
inductive RawResult where
  | resp (status : Nat) (body : Except String String)
  | timeout
  | connError
  | exc (msg : String)
deriving DecidableEq, Repr

/-- A Python exception crossing the fetcher's try block: the three classes
distinguished by the except clauses of `_fetch_slave_info`. -/
inductive PyExc where
  | timeoutExc
  | connectionErrorExc
  | otherExc (msg : String)
deriving DecidableEq, Repr

/-- Message of the `except requests.exceptions.Timeout` branch. -/
def timeoutMsg (s : SlaveInfo) : String :=
  "Connection timeout to " ++ s.name ++ " (" ++ s.ip ++ ":" ++ toString s.port ++ ")"

/-- Message of the `except requests.exceptions.ConnectionError` branch. -/
def connRefusedMsg (s : SlaveInfo) : String :=
  "Connection refused by " ++ s.name ++ " (" ++ s.ip ++ ":" ++ toString s.port ++ ")"

/-- Message of the non-200 status branch. -/
def httpErrorMsg (status : Nat) (s : SlaveInfo) : String :=
  "HTTP " ++ toString status ++ " from " ++ s.name ++ " (" ++ s.ip ++ ")"

/-- Message of the catch-all `except Exception` branch. -/
def genericErrorMsg (s : SlaveInfo) (m : String) : String :=
  "Error from " ++ s.name ++ ": " ++ m

/-- `MasterServer._fetch_slave_info(slave)`: performs one request and
commits the classified outcome into the record.  `now` is the value of
`time.time()` at the success commit.

Branches, in the order of the Python source: status 200 with parseable body
(success commit), a `response.json()` raise (caught by the catch-all
`except Exception`), non-200 status, timeout, connection error, any other
exception. -/
def fetchSlaveInfo (raw : RawResult) (now : Nat) (s : SlaveInfo) : SlaveInfo :=
  match raw with
  | .resp status body =>
    if status = 200 then
      match body with
      | .ok payload =>
        { s with data := some payload, online := true, last_seen := some now, error := none }
      | .error m =>
        { s with online := false, error := some (genericErrorMsg s m) }
    else
      { s with online := false, error := some (httpErrorMsg status s) }
  | .timeout => { s with online := false, error := some (timeoutMsg s) }
  | .connError => { s with online := false, error := some (connRefusedMsg s) }
  | .exc m => { s with online := false, error := some (genericErrorMsg s m) }

/-- The `requests.get` call viewed through the exception channel: a raised
exception is an `Except.error`. -/
def requestGet (raw : RawResult) : Except PyExc (Nat × Except String String) :=
  match raw with
  | .resp status body => .ok (status, body)
  | .timeout => .error .timeoutExc
  | .connError => .error .connectionErrorExc
  | .exc m => .error (.otherExc m)

/-- The body of the `try:` block of `_fetch_slave_info`: any raise — from
`requests.get` or from `response.json()` — escapes as `Except.error`. -/
def fetchTryBody (raw : RawResult) (now : Nat) (s : SlaveInfo) : Except PyExc SlaveInfo :=
  match requestGet raw with
  | .error e => .error e
  | .ok (status, body) =>
    if status = 200 then
      match body with
      | .ok payload =>
        .ok { s with data := some payload, online := true, last_seen := some now, error := none }
      | .error m => .error (.otherExc m)
    else
      .ok { s with online := false, error := some (httpErrorMsg status s) }

/-- `_fetch_slave_info` with its three except clauses made explicit: the
try body's exceptions are dispatched to the `Timeout`, `ConnectionError`
and catch-all `Exception` handlers.  The result type keeps the exception
channel so that "no exception propagates" is the statement that the result
is always `Except.ok`. -/
def fetchSlaveInfoE (raw : RawResult) (now : Nat) (s : SlaveInfo) : Except PyExc SlaveInfo :=
  match fetchTryBody raw now s with
  | .ok s' => .ok s'
  | .error .timeoutExc => .ok { s with online := false, error := some (timeoutMsg s) }
  | .error .connectionErrorExc => .ok { s with online := false, error := some (connRefusedMsg s) }
  | .error (.otherExc m) => .ok { s with online := false, error := some (genericErrorMsg s m) }

/-- Did the fetch succeed (status 200 and parseable body)? -/
def isSuccess : RawResult → Bool
  | .resp status (.ok _) => status == 200
  | _ => false

/-- The spec's per-record invariant: either reachable with no error, or
unreachable with an error present. -/
def stateInvariant (s : SlaveInfo) : Prop :=
  (s.online = true ∧ s.error = none) ∨ (s.online = false ∧ s.error.isSome = true)

/-- C1: after any completed fetch commit, exactly one of {reachable, no
error} or {unreachable, error present} holds — a commit is never partially
applied so that `online = true` coexists with a present error.  Both the
Poller's cycle and a forced refresh commit through `_fetch_slave_info`,
which this theorem quantifies over. -/
theorem fetch_commit_invariant (raw : RawResult) (now : Nat) (s : SlaveInfo) :
    stateInvariant (fetchSlaveInfo raw now s) := by
  cases raw with
  | resp status body =>
    by_cases h : status = 200
    · cases body with
      | ok p => simp [fetchSlaveInfo, h, stateInvariant]
      | error m => simp [fetchSlaveInfo, h, stateInvariant]
    · simp [fetchSlaveInfo, h, stateInvariant]
  | timeout => simp [fetchSlaveInfo, stateInvariant]
  | connError => simp [fetchSlaveInfo, stateInvariant]
  | exc m => simp [fetchSlaveInfo, stateInvariant]

/-- One roster pass of `_monitor_slaves` (also the loop body of the
`refresh_all` route): `for slave in self.slaves.values(): self._fetch_slave_info(slave)`.
The roster is the insertion-ordered dict `self.slaves`, modelled as an
association list from ip to record; `env` gives the network behaviour of
the agent at each ip during this pass. -/
def monitorPass (env : String → RawResult) (now : Nat) :
    List (String × SlaveInfo) → List (String × SlaveInfo)
  | [] => []
  | (ip, s) :: rest => (ip, fetchSlaveInfo (env ip) now s) :: monitorPass env now rest

/-- A concrete record used by the closed witness theorems. -/
def sampleSlave : SlaveInfo := SlaveInfo.init "Slave-1" "10.0.0.1"

/-- C2: a single fetch commit, in both directions.  On success (status 200,
parseable body) the record becomes: payload set to the received body,
`online = true`, `last_seen = now`, error cleared.  On any failure the
record keeps its payload and its `last_seen` unchanged, `online` becomes
`false`, and an error message is recorded. -/
theorem fetch_commit_outcome (raw : RawResult) (now : Nat) (s : SlaveInfo) :
    (∀ p, raw = .resp 200 (.ok p) →
      fetchSlaveInfo raw now s =
        { s with data := some p, online := true, last_seen := some now, error := none }) ∧
    (isSuccess raw = false →
      (fetchSlaveInfo raw now s).online = false ∧
      (fetchSlaveInfo raw now s).error.isSome = true ∧
      (fetchSlaveInfo raw now s).data = s.data ∧
      (fetchSlaveInfo raw now s).last_seen = s.last_seen) := by
  constructor
  · rintro p rfl
    simp [fetchSlaveInfo]
  · intro hfail
    cases raw with
    | resp status body =>
      by_cases h : status = 200
      · cases body with
        | ok p => subst h; simp [isSuccess] at hfail
        | error m => simp [fetchSlaveInfo, h]
      · simp [fetchSlaveInfo, h]
    | timeout => simp [fetchSlaveInfo]
    | connError => simp [fetchSlaveInfo]
    | exc m => simp [fetchSlaveInfo]

/-- Witness for `fetch_commit_outcome`: both hypotheses discharged at
concrete inputs — a successful response with body `"payload"`, and a
timeout against the same record. -/
theorem fetch_commit_outcome_witness :
    (fetchSlaveInfo (.resp 200 (.ok "payload")) 42 sampleSlave =
      { sampleSlave with data := some "payload", online := true,
                         last_seen := some 42, error := none }) ∧
    ((fetchSlaveInfo .timeout 42 sampleSlave).online = false ∧
     (fetchSlaveInfo .timeout 42 sampleSlave).error.isSome = true ∧
     (fetchSlaveInfo .timeout 42 sampleSlave).data = sampleSlave.data ∧
     (fetchSlaveInfo .timeout 42 sampleSlave).last_seen = sampleSlave.last_seen) :=
  ⟨(fetch_commit_outcome (.resp 200 (.ok "payload")) 42 sampleSlave).1 "payload" rfl,
   (fetch_commit_outcome .timeout 42 sampleSlave).2 rfl⟩

/-- C3: the fetcher never lets an exception cross its boundary — for every
network behaviour `fetchSlaveInfoE` returns `Except.ok` of exactly the
state `fetchSlaveInfo` commits — and one roster pass processes every agent
independently: entry `i` of the pass result is the commit of agent `i`'s
own outcome, whatever outcomes (including failures) the other agents have.
Hence one agent's failure never aborts a poll cycle or the refresh of a
different agent. -/
theorem fetch_never_raises_pass_independent (env : String → RawResult) (now : Nat)
    (slaves : List (String × SlaveInfo)) :
    (∀ raw s, fetchSlaveInfoE raw now s = Except.ok (fetchSlaveInfo raw now s)) ∧
    monitorPass env now slaves =
      slaves.map (fun p => (p.1, fetchSlaveInfo (env p.1) now p.2)) := by
  constructor
  · intro raw s
    cases raw with
    | resp status body =>
      by_cases h : status = 200
      · cases body with
        | ok p => simp [fetchSlaveInfoE, fetchTryBody, requestGet, fetchSlaveInfo, h]
        | error m => simp [fetchSlaveInfoE, fetchTryBody, requestGet, fetchSlaveInfo, h]
      · simp [fetchSlaveInfoE, fetchTryBody, requestGet, fetchSlaveInfo, h]
    | timeout => simp [fetchSlaveInfoE, fetchTryBody, requestGet, fetchSlaveInfo]
    | connError => simp [fetchSlaveInfoE, fetchTryBody, requestGet, fetchSlaveInfo]
    | exc m => simp [fetchSlaveInfoE, fetchTryBody, requestGet, fetchSlaveInfo]
  · induction slaves with
    | nil => rfl
    | cons p rest ih => simpa [monitorPass] using ih

/-- Helper: a failed fetch sets `online := false` and leaves the payload
untouched. -/
lemma fetch_fail_sticky (raw : RawResult) (now : Nat) (s : SlaveInfo)
    (hfail : isSuccess raw = false) :
    (fetchSlaveInfo raw now s).online = false ∧ (fetchSlaveInfo raw now s).data = s.data := by
  cases raw with
  | resp status body =>
    by_cases h : status = 200
    · cases body with
      | ok p => subst h; simp [isSuccess] at hfail
      | error m => simp [fetchSlaveInfo, h]
    · simp [fetchSlaveInfo, h]
  | timeout => simp [fetchSlaveInfo]
  | connError => simp [fetchSlaveInfo]
  | exc m => simp [fetchSlaveInfo]

/-- Helper for C7, generalised to any starting record that is offline with
no payload. -/
lemma foldl_fail_offline_no_payload (now : Nat) :
    ∀ fails : List RawResult, (∀ r ∈ fails, isSuccess r = false) →
      ∀ s : SlaveInfo, s.online = false → s.data = none →
        (fails.foldl (fun a r => fetchSlaveInfo r now a) s).online = false ∧
        (fails.foldl (fun a r => fetchSlaveInfo r now a) s).data = none := by
  intro fails
  induction fails with
  | nil => intro _ s h1 h2; exact ⟨h1, h2⟩
  | cons r rest ih =>
    intro hall s _ h2
    have hr : isSuccess r = false := hall r (List.mem_cons_self r rest)
    have hstep := fetch_fail_sticky r now s hr
    have hrest : ∀ r' ∈ rest, isSuccess r' = false :=
      fun r' hr' => hall r' (List.mem_cons_of_mem r hr')
    exact ih hrest (fetchSlaveInfo r now s) hstep.1 (hstep.2.trans h2)

/-- C7: an agent that has never had a successful fetch — starting from the
freshly constructed record (`online=False, data=None, error=None`) and
undergoing any sequence of failed fetch commits — still reads back as
unreachable with no payload. -/
theorem never_successful_agent_state (name ip : String) (port now : Nat)
    (fails : List RawResult) (hall : ∀ r ∈ fails, isSuccess r = false) :
    (fails.foldl (fun a r => fetchSlaveInfo r now a) (SlaveInfo.init name ip port)).online
      = false ∧
    (fails.foldl (fun a r => fetchSlaveInfo r now a) (SlaveInfo.init name ip port)).data
      = none :=
  foldl_fail_offline_no_payload now fails hall (SlaveInfo.init name ip port) rfl rfl

/-- Witness for `never_successful_agent_state`: a timeout, a 503 response
and a refused connection in sequence, against a fresh record. -/
theorem never_successful_agent_state_witness :
    (∀ r ∈ [RawResult.timeout, RawResult.resp 503 (.ok "oops"), RawResult.connError],
      isSuccess r = false) ∧
    (([RawResult.timeout, RawResult.resp 503 (.ok "oops"), RawResult.connError].foldl
        (fun a r => fetchSlaveInfo r 9 a) (SlaveInfo.init "Slave-2" "10.0.0.2" 5001)).online
      = false ∧
     ([RawResult.timeout, RawResult.resp 503 (.ok "oops"), RawResult.connError].foldl
        (fun a r => fetchSlaveInfo r 9 a) (SlaveInfo.init "Slave-2" "10.0.0.2" 5001)).data
      = none) :=
  ⟨by decide,
   never_successful_agent_state "Slave-2" "10.0.0.2" 5001 9
     [RawResult.timeout, RawResult.resp 503 (.ok "oops"), RawResult.connError] (by decide)⟩

/-- The success branch of `_fetch_slave_info` as the sequence of its four
field assignments, in source order:
`slave.data = response.json()`, `slave.online = True`,
`slave.last_seen = time.time()`, `slave.error = None`.
Each assignment is one atomic store; nothing guards the sequence. -/
def successWriteSeq (payload : String) (now : Nat) : List (SlaveInfo → SlaveInfo) :=
  [fun s => { s with data := some payload },
   fun s => { s with online := true },
   fun s => { s with last_seen := some now },
   fun s => { s with error := none }]

/-- Apply a sequence of field writes to a record. -/
def applyWrites (ws : List (SlaveInfo → SlaveInfo)) (s : SlaveInfo) : SlaveInfo :=
  ws.foldl (fun a f => f a) s

/-- The record a concurrent reader observes when it is scheduled after the
first `k` writes of a commit. -/
def observeMid (ws : List (SlaveInfo → SlaveInfo)) (k : Nat) (s : SlaveInfo) : SlaveInfo :=
  applyWrites (ws.take k) s

/-- A record of an agent whose previous fetch failed: offline, sticky
payload, error message present. -/
def failedSlave : SlaveInfo :=
  { name := "Slave-1", ip := "10.0.0.1", port := 5001, online := false,
    last_seen := some 7, data := some "old", error := some (timeoutMsg sampleSlave) }

/-- C4 fails on the code: the success commit is four separate in-place
field writes with no lock, so a reader interleaved after the
`online = True` write (write 2) but before the `error = None` write
(write 4) observes `online = true` together with the stale error of the
previous failure — exactly the half-written record the claim rules out.
The last conjunct checks that the modelled write sequence, run to
completion, is precisely the success commit of `_fetch_slave_info`. -/
theorem snapshot_mid_commit_race :
    (observeMid (successWriteSeq "new" 42) 2 failedSlave).online = true ∧
    (observeMid (successWriteSeq "new" 42) 2 failedSlave).error.isSome = true ∧
    ¬ stateInvariant (observeMid (successWriteSeq "new" 42) 2 failedSlave) ∧
    applyWrites (successWriteSeq "new" 42) failedSlave =
      fetchSlaveInfo (.resp 200 (.ok "new")) 42 failedSlave := by
  refine ⟨rfl, rfl, ?_, rfl⟩
  simp [stateInvariant, observeMid, applyWrites, successWriteSeq, failedSlave]

/-- The `while self._running:` loop of `_monitor_slaves`, abstracted to the
list of (cycle, agent-ip) fetch events it performs.  `flag j` is the value
the loop reads from `self._running` at the top of iteration `j`; the flag
is read only there, so once an iteration starts its full roster pass runs —
the inner `for` loop never re-checks the flag.  Each event stands for one
`_fetch_slave_info` call and its state commit.  `fuel` bounds the number of
iterations examined. -/
def monitorEvents (flag : Nat → Bool) (roster : List String) :
    Nat → Nat → List (Nat × String)
  | _, 0 => []
  | start, fuel + 1 =>
    if flag start then
      roster.map (fun ip => (start, ip)) ++ monitorEvents flag roster (start + 1) fuel
    else []

/-- The running flag when `stop_monitoring` is called during cycle `N`:
`self._running` was still `True` when read at the top of every iteration up
to `N`, and is `False` at every later read (nothing sets it back). -/
def runFlag (N : Nat) : Nat → Bool := fun j => decide (j ≤ N)

/-- Helper: every event of the monitor loop happened in an iteration whose
flag read was `True`, at or after the starting iteration. -/
lemma monitorEvents_mem_flag (flag : Nat → Bool) (roster : List String) :
    ∀ fuel start c ip, (c, ip) ∈ monitorEvents flag roster start fuel →
      flag c = true ∧ start ≤ c := by
  intro fuel
  induction fuel with
  | zero => intro start c ip h; simp [monitorEvents] at h
  | succ fuel ih =>
    intro start c ip h
    by_cases hf : flag start
    · simp only [monitorEvents, hf, if_true, List.mem_append, List.mem_map] at h
      rcases h with ⟨a, _, heq⟩ | h
      · cases heq
        exact ⟨hf, Nat.le_refl _⟩
      · obtain ⟨h1, h2⟩ := ih (start + 1) c ip h
        exact ⟨h1, Nat.le_of_succ_le h2⟩
    · simp [monitorEvents, hf] at h

/-- Helper: while the flag stays `True` through a cycle, that cycle fetches
every roster entry. -/
lemma monitorEvents_mem_of_run (flag : Nat → Bool) (roster : List String) :
    ∀ fuel start target, (∀ j, start ≤ j → j ≤ target → flag j = true) →
      start ≤ target → target < start + fuel →
      ∀ ip ∈ roster, (target, ip) ∈ monitorEvents flag roster start fuel := by
  intro fuel
  induction fuel with
  | zero => intro start target _ h1 h2; omega
  | succ fuel ih =>
    intro start target hflag h1 h2 ip hip
    have hf : flag start = true := hflag start (Nat.le_refl _) h1
    rcases Nat.eq_or_lt_of_le h1 with heq | hlt
    · subst heq
      simp only [monitorEvents, hf, if_true, List.mem_append, List.mem_map]
      exact Or.inl ⟨ip, hip, rfl⟩
    · simp only [monitorEvents, hf, if_true, List.mem_append]
      exact Or.inr (ih (start + 1) target
        (fun j hj1 hj2 => hflag j (by omega) hj2) hlt (by omega) ip hip)

/-- C8: when a stop is requested during cycle `N` (the running flag is
`True` at every read up to cycle `N` and `False` afterwards, which is what
`stop_monitoring` effects), the loop performs no fetch or commit belonging
to any cycle after `N`, while cycle `N` itself still fetches every roster
entry — the pass in progress runs to completion. -/
theorem poller_stop_clean (roster : List String) (N fuel : Nat) :
    (∀ c ip, (c, ip) ∈ monitorEvents (runFlag N) roster 0 fuel → c ≤ N) ∧
    (N < fuel → ∀ ip ∈ roster, (N, ip) ∈ monitorEvents (runFlag N) roster 0 fuel) := by
  constructor
  · intro c ip h
    have := (monitorEvents_mem_flag (runFlag N) roster fuel 0 c ip h).1
    simpa [runFlag] using this
  · intro hfuel ip hip
    exact monitorEvents_mem_of_run (runFlag N) roster fuel 0 N
      (fun j _ hj => by simpa [runFlag] using hj) (Nat.zero_le _) (by omega) ip hip

/-- Witness for `poller_stop_clean`: stop requested during cycle 1 of a
one-agent roster; cycle 1's fetch of that agent occurs, cycle 2's does not. -/
theorem poller_stop_clean_witness :
    (1, "10.0.0.1") ∈ monitorEvents (runFlag 1) ["10.0.0.1"] 0 3 ∧
    ¬ (2, "10.0.0.1") ∈ monitorEvents (runFlag 1) ["10.0.0.1"] 0 3 :=
  ⟨(poller_stop_clean ["10.0.0.1"] 1 3).2 (by decide) "10.0.0.1" (by simp),
   fun h => absurd ((poller_stop_clean ["10.0.0.1"] 1 3).1 2 "10.0.0.1" h) (by decide)⟩

/-- Python dict lookup `self.slaves[ip]` / membership `ip in self.slaves`
on the insertion-ordered association list. -/
def dictLookup (ip : String) : List (String × SlaveInfo) → Option SlaveInfo
  | [] => none
  | p :: rest => if p.1 = ip then some p.2 else dictLookup ip rest

/-- Python dict assignment to an existing key: replace the value in place,
keeping the key's position. -/
def dictUpdate (ip : String) (v : SlaveInfo) : List (String × SlaveInfo) →
    List (String × SlaveInfo)
  | [] => []
  | p :: rest => if p.1 = ip then (ip, v) :: rest else p :: dictUpdate ip v rest

/-- Python dict assignment `self.slaves[ip] = ...`: replace if the key is
present, else append at the end (dicts preserve insertion order). -/
def dictInsert (k : String) (v : SlaveInfo) : List (String × SlaveInfo) →
    List (String × SlaveInfo)
  | [] => [(k, v)]
  | p :: rest => if p.1 = k then (k, v) :: rest else p :: dictInsert k v rest

/-- Body a route handler returns. -/
inductive ApiResponse where
  | dictOf (m : List (String × SlaveDict))
  | oneOf (d : SlaveDict)
  | notFound
  | successFlag
deriving DecidableEq, Repr

/-- The per-agent dictionaries built by the `get_slaves` route's loop. -/
def snapshotAll (slaves : List (String × SlaveInfo)) : List (String × SlaveDict) :=
  slaves.map (fun p => (p.1, p.2.to_dict))

/-- Route `GET /api/slaves`. -/
def get_slaves (slaves : List (String × SlaveInfo)) : ApiResponse :=
  .dictOf (snapshotAll slaves)

/-- Route `GET /api/slaves/<slave_ip>`. -/
def get_slave (slaves : List (String × SlaveInfo)) (slave_ip : String) : ApiResponse :=
  match dictLookup slave_ip slaves with
  | some s => .oneOf s.to_dict
  | none => .notFound

/-- Route `POST /api/slaves/<slave_ip>/refresh`: fetch that agent in place
and return its updated dictionary, or not-found. -/
def refresh_slave (env : String → RawResult) (now : Nat)
    (slaves : List (String × SlaveInfo)) (slave_ip : String) :
    List (String × SlaveInfo) × ApiResponse :=
  match dictLookup slave_ip slaves with
  | some s =>
    let s' := fetchSlaveInfo (env slave_ip) now s
    (dictUpdate slave_ip s' slaves, .oneOf s'.to_dict)
  | none => (slaves, .notFound)

/-- Route `POST /api/refresh`: `for slave in self.slaves.values():
self._fetch_slave_info(slave)` then `jsonify({"success": True})`. -/
def refresh_all (env : String → RawResult) (now : Nat) :
    List (String × SlaveInfo) → List (String × SlaveInfo) × ApiResponse
  | [] => ([], .successFlag)
  | (ip, s) :: rest =>
    ((ip, fetchSlaveInfo (env ip) now s) :: (refresh_all env now rest).1, .successFlag)

/-- Body of the `GET /api/health` response. -/
structure HealthResponse where
  status : String
  timestamp : Nat
  slaves_total : Nat
  slaves_online : Nat
deriving DecidableEq, Repr

/-- Route `GET /api/health`: `online_count = sum(1 for s in
self.slaves.values() if s.online)`. -/
def health_check (now : Nat) (slaves : List (String × SlaveInfo)) : HealthResponse :=
  { status := "ok", timestamp := now,
    slaves_total := slaves.length,
    slaves_online := (slaves.filter (fun p => p.2.online)).length }

/-- C5: `health_check` reports `slaves_total` equal to the number of roster
entries and `slaves_online` equal to the number of entries of the
`get_slaves` snapshot whose `online` field is true. -/
theorem health_summary_counts (now : Nat) (slaves : List (String × SlaveInfo)) :
    (health_check now slaves).slaves_total = slaves.length ∧
    (health_check now slaves).slaves_online
      = ((snapshotAll slaves).filter (fun p => p.2.online)).length := by
  refine ⟨rfl, ?_⟩
  show (slaves.filter (fun p => p.2.online)).length
      = ((snapshotAll slaves).filter (fun p => p.2.online)).length
  induction slaves with
  | nil => rfl
  | cons p rest ih =>
    by_cases h : p.2.online
    · simpa [snapshotAll, List.filter_cons, SlaveInfo.to_dict, h] using ih
    · simpa [snapshotAll, List.filter_cons, SlaveInfo.to_dict, h] using ih

/-- C9: a nonexistent id gets a not-found response from both the single
snapshot and the forced refresh, and a forced refresh of a nonexistent id
leaves every agent's state unchanged. -/
theorem nonexistent_id_not_found (env : String → RawResult) (now : Nat)
    (slaves : List (String × SlaveInfo)) (slave_ip : String)
    (habs : dictLookup slave_ip slaves = none) :
    get_slave slaves slave_ip = .notFound ∧
    refresh_slave env now slaves slave_ip = (slaves, .notFound) := by
  constructor
  · simp [get_slave, habs]
  · simp [refresh_slave, habs]

/-- Witness for `nonexistent_id_not_found`: a one-agent roster queried at
an absent ip. -/
theorem nonexistent_id_not_found_witness :
    dictLookup "10.0.0.9" [("10.0.0.1", sampleSlave)] = none ∧
    (get_slave [("10.0.0.1", sampleSlave)] "10.0.0.9" = .notFound ∧
     refresh_slave (fun _ => RawResult.timeout) 5 [("10.0.0.1", sampleSlave)] "10.0.0.9"
       = ([("10.0.0.1", sampleSlave)], .notFound)) :=
  ⟨by decide,
   nonexistent_id_not_found (fun _ => RawResult.timeout) 5
     [("10.0.0.1", sampleSlave)] "10.0.0.9" (by decide)⟩

/-- A concrete one-agent roster and network environment for the C6
counterexample. -/
def sampleRoster : List (String × SlaveInfo) := [("10.0.0.1", sampleSlave)]

/-- C6 fails on the code: `refresh_all` answers `{"success": True}` — at a
concrete roster its response is the success flag, not the mapping from
agent id to the updated state (which `get_slaves` would serve). -/
theorem refresh_all_returns_flag_not_mapping :
    (refresh_all (fun _ => RawResult.timeout) 5 sampleRoster).2 = ApiResponse.successFlag ∧
    (refresh_all (fun _ => RawResult.timeout) 5 sampleRoster).2
      ≠ get_slaves (refresh_all (fun _ => RawResult.timeout) 5 sampleRoster).1 := by
  exact ⟨rfl, by decide⟩

/-- C6 as amended: `refresh_all` synchronously fetches and commits every
roster agent — its updated states are exactly those of one Poller roster
pass (`monitorPass`), the same fan-out — and its response body is the
success flag. -/
theorem refresh_all_fans_out_returns_flag (env : String → RawResult) (now : Nat)
    (slaves : List (String × SlaveInfo)) :
    (refresh_all env now slaves).1 = monitorPass env now slaves ∧
    (refresh_all env now slaves).2 = ApiResponse.successFlag := by
  induction slaves with
  | nil => exact ⟨rfl, rfl⟩
  | cons p rest ih =>
    refine ⟨?_, ?_⟩
    · show (p.1, fetchSlaveInfo (env p.1) now p.2) :: (refresh_all env now rest).1
        = (p.1, fetchSlaveInfo (env p.1) now p.2) :: monitorPass env now rest
      rw [ih.1]
    · rfl

/-- One entry of the `slaves` list of the configuration: `name` and `port`
are optional (`slave_config.get`), `ip` is the key. -/
structure SlaveConfigEntry where
  name : Option String
  ip : String
  port : Option Nat
deriving DecidableEq, Repr

/-- The record `_init_slaves` builds for one config entry:
`name = slave_config.get('name', slave_config.get('ip'))`,
`port = slave_config.get('port', slave_port)`. -/
def mkSlaveInfo (e : SlaveConfigEntry) (slave_port : Nat) : SlaveInfo :=
  SlaveInfo.init (e.name.getD e.ip) e.ip (e.port.getD slave_port)

/-- `MasterServer._init_slaves`: `self.slaves[ip] = SlaveInfo(name, ip, port)`
for each config entry in order, starting from the empty dict. -/
def initSlaves (cfg : List SlaveConfigEntry) (slave_port : Nat) :
    List (String × SlaveInfo) :=
  cfg.foldl (fun m e => dictInsert e.ip (mkSlaveInfo e slave_port) m) []

/-- Helper: looking up after a dict assignment sees the new value at that
key and the old dict elsewhere. -/
lemma dictLookup_dictInsert (k : String) (v : SlaveInfo) (ip : String) :
    ∀ m : List (String × SlaveInfo),
      dictLookup ip (dictInsert k v m) = if k = ip then some v else dictLookup ip m := by
  intro m
  induction m with
  | nil => simp [dictInsert, dictLookup]
  | cons p rest ih =>
    by_cases hp : p.1 = k
    · rw [dictInsert, if_pos hp]
      by_cases hk : k = ip
      · rw [dictLookup, if_pos hk, if_pos hk]
      · have hpi : ¬ p.1 = ip := by rw [hp]; exact hk
        rw [dictLookup, if_neg hk, if_neg hk, dictLookup, if_neg hpi]
    · rw [dictInsert, if_neg hp, dictLookup]
      by_cases hpi : p.1 = ip
      · have hk : ¬ k = ip := fun h => hp (by rw [hpi, h])
        rw [if_pos hpi, if_neg hk, dictLookup, if_pos hpi]
      · rw [if_neg hpi, ih]
        by_cases hk : k = ip
        · rw [if_pos hk, if_pos hk]
        · rw [if_neg hk, if_neg hk, dictLookup, if_neg hpi]

/-- Helper: when no config entry matches `ip`, the fold of dict
assignments leaves the lookup at `ip` unchanged. -/
lemma initSlaves_fold_no_match (d : Nat) (ip : String) :
    ∀ (cfg : List SlaveConfigEntry) (m : List (String × SlaveInfo)),
      cfg.filter (fun x => x.ip == ip) = [] →
      dictLookup ip (cfg.foldl (fun acc x => dictInsert x.ip (mkSlaveInfo x d) acc) m)
        = dictLookup ip m := by
  intro cfg
  induction cfg with
  | nil => intro m _; rfl
  | cons c rest ih =>
    intro m hfl
    by_cases hc : c.ip = ip
    · rw [List.filter_cons_of_pos (by simpa using hc)] at hfl
      exact absurd hfl (List.cons_ne_nil _ _)
    · rw [List.filter_cons_of_neg (by simpa using hc)] at hfl
      rw [List.foldl_cons, ih (dictInsert c.ip (mkSlaveInfo c d) m) hfl,
        dictLookup_dictInsert, if_neg hc]

/-- Helper: the lookup at `ip` after the fold of dict assignments is the
record built from the last config entry whose ip is `ip`. -/
lemma initSlaves_fold_last_match (d : Nat) (ip : String) :
    ∀ (cfg : List SlaveConfigEntry) (m : List (String × SlaveInfo)) (e : SlaveConfigEntry),
      (cfg.filter (fun x => x.ip == ip)).getLast? = some e →
      dictLookup ip (cfg.foldl (fun acc x => dictInsert x.ip (mkSlaveInfo x d) acc) m)
        = some (mkSlaveInfo e d) := by
  intro cfg
  induction cfg with
  | nil => intro m e h; simp at h
  | cons c rest ih =>
    intro m e h
    rcases hfl : rest.filter (fun x => x.ip == ip) with _ | ⟨x, xs⟩
    · by_cases hc : c.ip = ip
      · rw [List.filter_cons_of_pos (by simpa using hc), hfl, List.getLast?_singleton,
          Option.some.injEq] at h
        subst h
        rw [List.foldl_cons, initSlaves_fold_no_match d ip rest _ hfl,
          dictLookup_dictInsert, if_pos hc]
      · rw [List.filter_cons_of_neg (by simpa using hc), hfl] at h
        simp at h
    · have hx : (rest.filter (fun x => x.ip == ip)).getLast? = some e := by
        by_cases hc : c.ip = ip
        · rw [List.filter_cons_of_pos (by simpa using hc), hfl,
            List.getLast?_cons_cons] at h
          rw [hfl]; exact h
        · rw [List.filter_cons_of_neg (by simpa using hc), hfl] at h
          rw [hfl]; exact h
      rw [List.foldl_cons]
      exact ih (dictInsert c.ip (mkSlaveInfo c d) m) e hx

/-- C10: the roster built by `_init_slaves` is keyed by each entry's ip,
not its display name: the lookup at any ip is the record built from the
*last* configuration entry carrying that ip (so a duplicated ip is
silently overwritten, keeping the later entry's name and port), while
entries with equal names but distinct ips each keep their own roster slot. -/
theorem roster_keyed_by_ip_last_wins (cfg : List SlaveConfigEntry) (slave_port : Nat)
    (ip : String) :
    dictLookup ip (initSlaves cfg slave_port)
      = ((cfg.filter (fun x => x.ip == ip)).getLast?).map
          (fun e => mkSlaveInfo e slave_port) := by
  rcases h : (cfg.filter (fun x => x.ip == ip)).getLast? with _ | e
  · rw [h, Option.map_none']
    exact initSlaves_fold_no_match slave_port ip cfg []
      (List.getLast?_eq_none_iff.mp h)
  · rw [h, Option.map_some']
    exact initSlaves_fold_last_match slave_port ip cfg [] e h

end FlowPipeLine
